import Mathlib

/-!
Verification of the theme-preference store of the portfolio repository.

The runtime logic under scrutiny lives in the theme provider component:
a two-valued theme, a lazy state initializer reading `localStorage` and the
document root's class list, a synchronization effect that rewrites the
document markers and persists the theme, a toggle, and a context-access
guard. Each definition below is a direct shallow embedding of the
corresponding TypeScript source.
-/

/-- The theme value: `type Theme = "dark" | "light"`. -/
inductive Theme where
  | dark : Theme
  | light : Theme
deriving DecidableEq, Repr

/-- The string literal a theme denotes in the source. -/
def Theme.toString : Theme → String
  | Theme.dark => "dark"
  | Theme.light => "light"

/-- `localStorage` modelled as an association list of key-value pairs;
`getItem` returns the value under the first matching key, or `null`
(here `none`) when the key is absent. -/
def getItem (st : List (String × String)) (k : String) : Option String :=
  (st.find? (fun p => p.1 == k)).map (fun p => p.2)

/-- `localStorage.setItem st k v`: the store afterwards maps `k` to `v`,
all other keys unchanged. -/
def setItem (st : List (String × String)) (k : String) (v : String) :
    List (String × String) :=
  (k, v) :: st.filter (fun p => p.1 != k)

/-- `root.classList.remove("light", "dark")`: both tokens are removed. -/
def classListRemove (l : List String) : List String :=
  l.filter (fun c => !(c == "light" || c == "dark"))

/-- `classList.add c`: a `DOMTokenList` holds no duplicates, so the token
is appended only when absent. -/
def classListAdd (l : List String) (c : String) : List String :=
  if c ∈ l then l else l ++ [c]

/-- The browser-visible environment of the provider: whether `window`
exists, the `localStorage` contents, and the class list of
`document.documentElement`. -/
structure Env where
  hasWindow : Bool
  storage : List (String × String)
  classList : List String
deriving DecidableEq, Repr

/-- `function isValidTheme(value: string | null): value is Theme`
from the source: `value === "dark" || value === "light"`. -/
def isValidTheme (value : Option String) : Bool :=
  value == some "dark" || value == some "light"

/-- The `useState` lazy initializer of `ThemeProvider`: with a window,
read `localStorage.getItem("theme")`; adopt it when `isValidTheme`
accepts it; otherwise consult `document.documentElement.classList`
for the `"dark"` marker; without a window, `"dark"`. -/
def initTheme (env : Env) : Theme :=
  if env.hasWindow then
    let stored := getItem env.storage "theme"
    if isValidTheme stored then
      if stored == some "dark" then Theme.dark else Theme.light
    else if env.classList.contains "dark" then Theme.dark
    else Theme.light
  else Theme.dark

/-- The `useEffect` body of `ThemeProvider`, run after mount and after
every `theme` change: remove both markers, add the marker for `theme`,
write `theme` to storage under the key `"theme"`. -/
def runSyncEffect (t : Theme) (env : Env) : Env :=
  { hasWindow := env.hasWindow,
    storage := setItem env.storage "theme" t.toString,
    classList := classListAdd (classListRemove env.classList) t.toString }

/-- `toggleTheme`'s state update: `prev === "dark" ? "light" : "dark"`. -/
def toggleTheme (prev : Theme) : Theme :=
  if prev == Theme.dark then Theme.light else Theme.dark

/-- The provider's live state: the in-memory `theme` plus the browser
environment it acts upon. -/
structure ProviderState where
  theme : Theme
  env : Env
deriving DecidableEq, Repr

/-- One `toggleTheme()` call as observed after the turn completes: the
state update runs, the component re-renders, and the `[theme]`-keyed
effect fires with the new value. -/
def toggleStep (s : ProviderState) : ProviderState :=
  { theme := toggleTheme s.theme,
    env := runSyncEffect (toggleTheme s.theme) s.env }

/-- Mounting the provider in an environment: the initializer picks the
theme and, when a window (hence a document) exists, the mount-time run
of the effect synchronizes markers and storage; in a windowless render
pass no effect runs. -/
def mountProvider (env : Env) : ProviderState :=
  let t := initTheme env
  if env.hasWindow then { theme := t, env := runSyncEffect t env }
  else { theme := t, env := env }

/-- `n` successive `toggleTheme()` calls, also recording the sequence of
values written to durable storage, first write first. -/
def togglesTrace : Nat → ProviderState → ProviderState × List String
  | 0, s => (s, [])
  | n + 1, s =>
    let s1 := toggleStep s
    let r := togglesTrace n s1
    (r.1, s1.theme.toString :: r.2)

/-- The value held by the theme context: `{ theme, toggleTheme }`. -/
structure ThemeContextValue where
  theme : Theme
  toggleTheme : Unit → Unit

/-- `useTheme`: read the context; throw
`"useTheme must be used within a ThemeProvider"` when no provider value
is available, else return the value. -/
def useTheme (ctx : Option ThemeContextValue) :
    Except String ThemeContextValue :=
  match ctx with
  | none => Except.error "useTheme must be used within a ThemeProvider"
  | some c => Except.ok c

/-- The sync effect in an environment where the durable-storage write
throws (`storageThrows = true`). The source wraps nothing in
`try`/`catch`, so the exception propagates out of the effect body. -/
def runSyncEffectExc (t : Theme) (storageThrows : Bool) (env : Env) :
    Except String Env :=
  if storageThrows then Except.error "localStorage.setItem failed"
  else Except.ok (runSyncEffect t env)

/-- A `toggleTheme()` call when the storage write may throw: the state
update itself always lands (first component); the effect's outcome is
the second component. -/
def toggleStepExc (storageThrows : Bool) (s : ProviderState) :
    Theme × Except String Env :=
  (toggleTheme s.theme,
   runSyncEffectExc (toggleTheme s.theme) storageThrows s.env)

-- Helper lemmas

theorem toggle_toggle (t : Theme) : toggleTheme (toggleTheme t) = t := by
  cases t <;> rfl

theorem toggleStep_theme (s : ProviderState) :
    (toggleStep s).theme = toggleTheme s.theme := rfl

theorem getItem_setItem_same (st : List (String × String)) (k v : String) :
    getItem (setItem st k v) k = some v := by
  simp [getItem, setItem]

theorem dark_not_mem_classListRemove (l : List String) :
    "dark" ∉ classListRemove l := by
  intro h
  have h2 := List.mem_filter.mp h
  simp at h2

theorem light_not_mem_classListRemove (l : List String) :
    "light" ∉ classListRemove l := by
  intro h
  have h2 := List.mem_filter.mp h
  simp at h2

theorem classListAdd_of_not_mem (l : List String) (c : String)
    (h : c ∉ l) : classListAdd l c = l ++ [c] := by
  simp [classListAdd, h]

theorem count_dark_classListRemove (l : List String) :
    (classListRemove l).count "dark" = 0 :=
  List.count_eq_zero.mpr (dark_not_mem_classListRemove l)

theorem count_light_classListRemove (l : List String) :
    (classListRemove l).count "light" = 0 :=
  List.count_eq_zero.mpr (light_not_mem_classListRemove l)

theorem classList_runSyncEffect (t : Theme) (env : Env) :
    (runSyncEffect t env).classList
      = classListRemove env.classList ++ [t.toString] := by
  cases t
  · exact congrArg (fun x => x) (classListAdd_of_not_mem _ _
      (dark_not_mem_classListRemove env.classList))
  · exact congrArg (fun x => x) (classListAdd_of_not_mem _ _
      (light_not_mem_classListRemove env.classList))

-- Claim theorems

/-- Claim C1: `toggleTheme` flips the theme (`dark → light`, `light → dark`),
never fails (it is a total function), and every such change triggers both
the durable-storage write and the document-marker synchronization: after
the step, storage holds the new value under `"theme"` and the document
class list carries the new marker. -/
theorem toggle_flips_and_syncs : ∀ s : ProviderState,
    (toggleStep s).theme = toggleTheme s.theme
    ∧ toggleTheme Theme.dark = Theme.light
    ∧ toggleTheme Theme.light = Theme.dark
    ∧ getItem (toggleStep s).env.storage "theme"
        = some (toggleTheme s.theme).toString
    ∧ (toggleTheme s.theme).toString ∈ (toggleStep s).env.classList := by
  intro s
  refine ⟨rfl, rfl, rfl, getItem_setItem_same _ _ _, ?_⟩
  show (toggleTheme s.theme).toString
      ∈ (runSyncEffect (toggleTheme s.theme) s.env).classList
  rw [classList_runSyncEffect]
  exact List.mem_append_right _ (List.mem_singleton.mpr rfl)

/-- Claim C2: initialization in a browser reads the stored value first;
a stored `"dark"` or `"light"` is adopted regardless of the document
marker state, while any other stored value is rejected and the marker on
the document root decides (`dark` when present, else `light`). -/
theorem init_validates_stored_then_marker
    (st : List (String × String)) (cl : List String) :
    (getItem st "theme" = some "dark"
        → initTheme ⟨true, st, cl⟩ = Theme.dark)
    ∧ (getItem st "theme" = some "light"
        → initTheme ⟨true, st, cl⟩ = Theme.light)
    ∧ (isValidTheme (getItem st "theme") = false
        → initTheme ⟨true, st, cl⟩
            = if cl.contains "dark" then Theme.dark else Theme.light) := by
  refine ⟨?_, ?_, ?_⟩
  · intro h
    simp [initTheme, isValidTheme, h]
  · intro h
    simp [initTheme, isValidTheme, h]
  · intro h
    have h2 : ¬(getItem st "theme" = some "dark"
        ∨ getItem st "theme" = some "light") := by
      simpa [isValidTheme] using h
    simp [initTheme, isValidTheme, h2]

theorem init_validates_stored_then_marker_witness :
    initTheme ⟨true, [("theme", "dark")], []⟩ = Theme.dark
    ∧ initTheme ⟨true, [("theme", "light")], ["dark"]⟩ = Theme.light
    ∧ initTheme ⟨true, [("theme", "blue")], ["dark"]⟩ = Theme.dark := by
  refine ⟨?_, ?_, ?_⟩
  · exact (init_validates_stored_then_marker _ _).1 (by decide)
  · exact (init_validates_stored_then_marker _ _).2.1 (by decide)
  · have h := (init_validates_stored_then_marker
      [("theme", "blue")] ["dark"]).2.2 (by decide)
    simpa using h

/-- Claim C3: after any theme change the document root carries exactly one
of the two markers, the one matching the new value: the new marker occurs
once, the other zero times, and the two counts sum to one. -/
theorem sync_exactly_one_marker : ∀ (t : Theme) (env : Env),
    ((runSyncEffect t env).classList.count "dark"
        = if t = Theme.dark then 1 else 0)
    ∧ ((runSyncEffect t env).classList.count "light"
        = if t = Theme.light then 1 else 0)
    ∧ (runSyncEffect t env).classList.count "dark"
        + (runSyncEffect t env).classList.count "light" = 1 := by
  intro t env
  cases t <;>
    simp [classList_runSyncEffect, List.count_append, Theme.toString,
      count_dark_classListRemove, count_light_classListRemove]

/-- Claim C4: after any theme change, durable storage holds exactly the new
theme string under `"theme"`, and a fresh browser initialization reading
that storage adopts the same theme, whatever the document markers. -/
theorem sync_persists_and_roundtrips :
    ∀ (t : Theme) (env : Env) (cl : List String),
    getItem (runSyncEffect t env).storage "theme" = some t.toString
    ∧ initTheme ⟨true, (runSyncEffect t env).storage, cl⟩ = t := by
  intro t env cl
  refine ⟨getItem_setItem_same _ _ _, ?_⟩
  have h : getItem (runSyncEffect t env).storage "theme"
      = some t.toString := getItem_setItem_same _ _ _
  cases t <;> simp_all [initTheme, isValidTheme, Theme.toString]

/-- Claim C5: after an even number of toggles the theme equals the initial
value and after an odd number it equals the other variant, for every
initial provider state. -/
theorem toggles_parity : ∀ (n : Nat) (s : ProviderState),
    (toggleStep^[n] s).theme
      = if n % 2 = 0 then s.theme else toggleTheme s.theme := by
  intro n
  induction n with
  | zero => intro s; simp
  | succ k ih =>
    intro s
    rw [Function.iterate_succ_apply, ih (toggleStep s)]
    rcases Nat.mod_two_eq_zero_or_one k with h | h
    · have h2 : (k + 1) % 2 = 1 := by omega
      simp [h, h2, toggleStep_theme]
    · have h2 : (k + 1) % 2 = 0 := by omega
      simp [h, h2, toggleStep_theme, toggle_toggle]

/-- Claim C6: reading the theme context with no provider value available
always yields the descriptive error
`"useTheme must be used within a ThemeProvider"` rather than a default,
and with a provider value it returns that value and never throws. -/
theorem useTheme_guard :
    useTheme none
      = Except.error "useTheme must be used within a ThemeProvider"
    ∧ ∀ c : ThemeContextValue, useTheme (some c) = Except.ok c :=
  ⟨rfl, fun _ => rfl⟩

/-- Claim C7: starting from theme `dark`, two toggles end at `dark` and
perform exactly two storage writes, `"light"` then `"dark"`, in every
environment. -/
theorem double_toggle_from_dark : ∀ env : Env,
    (togglesTrace 2 ⟨Theme.dark, env⟩).1.theme = Theme.dark
    ∧ (togglesTrace 2 ⟨Theme.dark, env⟩).2 = ["light", "dark"] := by
  intro env
  exact ⟨rfl, rfl⟩

/-- Claim C8: with no window available (non-browser render pass), the
initial theme is `dark`, whatever storage or class list would say. -/
theorem ssr_defaults_dark :
    ∀ (st : List (String × String)) (cl : List String),
    initTheme ⟨false, st, cl⟩ = Theme.dark := by
  intro st cl
  rfl

/-- Claim C9 counterexample: when the durable-storage write throws during
a value change, the sync effect does not degrade gracefully — at this
concrete input the effect body propagates the exception (the source has
no `try`/`catch`), instead of completing with an in-memory-only update. -/
theorem storage_throw_counterexample :
    runSyncEffectExc Theme.light true ⟨true, [], []⟩
      = Except.error "localStorage.setItem failed" := rfl

/-- Claim C9 (amended): when the durable-storage write throws during a
value change, the in-memory theme still updates and the caller of
`toggleTheme` sees no error (the state update is total and the write
happens later, in the effect phase), but the exception is not caught by
the component: it propagates out of the sync effect to the rendering
framework; when storage does not throw, the effect behaves as usual. -/
theorem storage_throw_propagates : ∀ (s : ProviderState) (b : Bool),
    (toggleStepExc b s).1 = toggleTheme s.theme
    ∧ (toggleStepExc true s).2
        = Except.error "localStorage.setItem failed"
    ∧ (toggleStepExc false s).2
        = Except.ok (runSyncEffect (toggleTheme s.theme) s.env) := by
  intro s b
  exact ⟨rfl, rfl, rfl⟩

/-- Claim C10: in a browser, the mount-time run of the sync effect happens
before any toggle, so right after initialization durable storage holds
under `"theme"` exactly the string of the initial theme — a valid
`"dark"`/`"light"` value — even when storage was empty or held an invalid
value before, and the provider's in-memory theme agrees with it. -/
theorem mount_writes_valid_theme (env : Env)
    (h : env.hasWindow = true) :
    getItem (mountProvider env).env.storage "theme"
      = some (initTheme env).toString
    ∧ isValidTheme (getItem (mountProvider env).env.storage "theme")
        = true
    ∧ (mountProvider env).theme = initTheme env := by
  have hm : mountProvider env
      = { theme := initTheme env,
          env := runSyncEffect (initTheme env) env } := by
    simp [mountProvider, h]
  refine ⟨?_, ?_, ?_⟩
  · rw [hm]
    exact getItem_setItem_same _ _ _
  · rw [hm]
    show isValidTheme (getItem
        (setItem env.storage "theme" (initTheme env).toString) "theme")
      = true
    rw [getItem_setItem_same]
    cases initTheme env <;> rfl
  · rw [hm]

theorem mount_writes_valid_theme_witness :
    getItem (mountProvider ⟨true, [("theme", "blue")], []⟩).env.storage
        "theme"
      = some (initTheme ⟨true, [("theme", "blue")], []⟩).toString
    ∧ isValidTheme (getItem
        (mountProvider ⟨true, [("theme", "blue")], []⟩).env.storage
        "theme") = true
    ∧ (mountProvider ⟨true, [("theme", "blue")], []⟩).theme
        = initTheme ⟨true, [("theme", "blue")], []⟩ :=
  mount_writes_valid_theme ⟨true, [("theme", "blue")], []⟩ rfl
